import Mathlib

/-!
# Verification of the cloudcafe behavior layer

Shallow embedding of the cloudcafe test-behavior modules:

* `cloudcafe/images/v2/behaviors.py` (`ImagesBehaviors`): image creation,
  paginated listing, entity validation, status polling;
* `cloudcafe/images/common/constants.py` (`ImageProperties`, `Messages`);
* `cloudcafe/stacktach/stacky_api/behaviors.py` (`StackTachBehavior`).

External collaborators (HTTP clients, configuration, the resource pool,
random-name generation) are modelled as explicit parameters; loops over
wall-clock time or an unbounded service are given an explicit fuel
argument, with `none`/`outOfFuel` marking the runs the fuel does not cover.
-/

namespace CloudCafe

/-- The deserialized image entity (`response.entity`).  Fields that the
behavior code only compares or None-checks are `Option`-valued, mirroring a
deserialized JSON object whose members may be null; `id_` is used as a
regex subject and a format argument, so it is a plain string. -/
structure Image where
  id_ : String
  status : Option String
  created_at : Option String
  updated_at : Option String
  file_ : Option String
  self_ : Option String
  schema : Option String
  min_disk : Option Nat
  min_ram : Option Nat
  protected_ : Option Bool
  deriving Repr, DecidableEq, Inhabited

/-- `cloudcafe/images/common/constants.py`: `Messages.ERROR_MSG` is the
template `Unexpected {0} value received. Expected: {1}, Received: {2}`;
this is that template applied to its three arguments. -/
def errorMsg (field expected received : String) : String :=
  "Unexpected " ++ field ++ " value received. Expected: " ++ expected ++
    ", Received: " ++ received

/-- Python's `str` applied to an optional string value, as used when a
possibly-null field is interpolated into an error message. -/
def pyStr : Option String → String
  | none => "None"
  | some s => s

/-- A character matched by the class `[0-9a-fA-F]` of
`ImageProperties.ID_REGEX`. -/
def isHexChar (c : Char) : Bool :=
  ('0' ≤ c && c ≤ '9') || ('a' ≤ c && c ≤ 'f') || ('A' ≤ c && c ≤ 'F')

/-- Consume exactly `n` characters of the class `[0-9a-fA-F]`, returning
the remaining input, or `none` when the input does not start with `n` hex
characters. -/
def hexRun : Nat → List Char → Option (List Char)
  | 0, cs => some cs
  | _ + 1, [] => none
  | n + 1, c :: cs => if isHexChar c then hexRun n cs else none

/-- Consume a literal `-`. -/
def dashRun : List Char → Option (List Char)
  | '-' :: cs => some cs
  | _ => none

/-- `ImageProperties.ID_REGEX =
`^[0-9a-fA-F]{8}-[0-9a-fA-F]{4}-[0-9a-fA-F]{4}-[0-9a-fA-F]{4}-[0-9a-fA-F]{12}$`
matched with `re.match`: the five fixed-length hex runs separated by
dashes, anchored at the start, and `$` matching at the end of the subject
or just before a trailing newline (Python `re` semantics for `$` without
`re.MULTILINE`). -/
def idRegexMatch (s : String) : Bool :=
  match (((((((((hexRun 8 s.data).bind dashRun).bind
      (hexRun 4)).bind dashRun).bind
      (hexRun 4)).bind dashRun).bind
      (hexRun 4)).bind dashRun).bind
      (hexRun 12)) with
  | some rest => rest == [] || rest == ['\n']
  | none => false

/-- Modelled from the spec: `Schemas.IMAGE_SCHEMA`, the "expected schema
URL string" from the missing `cloudcafe/images/common/types.py` module. -/
def Schemas.IMAGE_SCHEMA : String := "/v2/schemas/image"

/-- `ImagesBehaviors.validate_image`: accumulate one formatted mismatch
message per failing field check, in source order, and return the list.
Python `'/v2/images/{0}'.format(id)` and `'{0}/file'` templating is
rendered as string concatenation; `not None` and `None` format arguments
render as `True` and `None`.  The `self_` check labels its message
`schema`, exactly as the source does. -/
def validate_image (image : Image) : List String :=
  let errors : List String := []
  let errors := if image.created_at = none then
    errors ++ [errorMsg "created_at" "True" "None"] else errors
  let errors := if image.file_ ≠ some ("/v2/images/" ++ image.id_ ++ "/file") then
    errors ++ [errorMsg "file_" ("/v2/images/" ++ image.id_ ++ "/file")
      (pyStr image.file_)] else errors
  let errors := if idRegexMatch image.id_ = false then
    errors ++ [errorMsg "id_" "True" "None"] else errors
  let errors := if image.min_disk = none then
    errors ++ [errorMsg "min_disk" "True" "None"] else errors
  let errors := if image.min_ram = none then
    errors ++ [errorMsg "min_ram" "True" "None"] else errors
  let errors := if image.protected_ = none then
    errors ++ [errorMsg "protected" "True" "None"] else errors
  let errors := if image.schema ≠ some Schemas.IMAGE_SCHEMA then
    errors ++ [errorMsg "schema" Schemas.IMAGE_SCHEMA (pyStr image.schema)] else errors
  let errors := if image.self_ ≠ some ("/v2/images/" ++ image.id_) then
    errors ++ [errorMsg "schema" ("/v2/images/" ++ image.id_)
      (pyStr image.self_)] else errors
  let errors := if image.status = none then
    errors ++ [errorMsg "status" "True" "None"] else errors
  let errors := if image.updated_at = none then
    errors ++ [errorMsg "updated_at" "True" "None"] else errors
  errors

/-! ## Paginated listing (`ImagesBehaviors.list_images_pagination`) -/

/-- The filter keyword arguments of `client.list_images` other than
`marker`: the loop passes every one of them through unchanged on each
request, so their values are opaque optional strings here. -/
structure ListImagesParams where
  changes_since : Option String := none
  checksum : Option String := none
  container_format : Option String := none
  disk_format : Option String := none
  limit : Option String := none
  member_status : Option String := none
  min_disk : Option String := none
  min_ram : Option String := none
  name : Option String := none
  owner : Option String := none
  protected_ : Option String := none
  size_max : Option String := none
  size_min : Option String := none
  sort_dir : Option String := none
  sort_key : Option String := none
  status : Option String := none
  visibility : Option String := none
  deriving Repr, DecidableEq, Inhabited

/-- One issued `client.list_images` call: the pass-through filter
parameters together with the marker used for that request. -/
structure ListRequest where
  params : ListImagesParams
  marker : Option String
  deriving Repr, DecidableEq, Inhabited

/-- Outcome of the pagination loop: the accumulated image list with the
trace of issued requests, or the `IndexError` that
`images[results_limit - 1]` raises when `results_limit = 0` and the page
is empty. -/
inductive PagOutcome where
  | ok (image_list : List Image) (requests : List ListRequest)
  | indexError
  deriving Repr, DecidableEq

/-- The loop of `list_images_pagination`, one recursive call per issued
request.  `client` maps a call index, the pass-through parameters and the
marker to the page (`response.entity`) that call returns; `fuel` bounds
the number of requests, `none` marking a run the fuel does not cover
(the Python loop does not terminate when every page is full-size). -/
def paginateGo (client : Nat → ListImagesParams → Option String → List Image)
    (params : ListImagesParams) (results_limit : Nat) :
    Nat → Nat → Option String → List Image → List ListRequest →
    Option PagOutcome
  | 0, _, _, _, _ => none
  | fuel + 1, k, marker, image_list, trace =>
    let images := client k params marker
    let trace := trace ++ [⟨params, marker⟩]
    if images.length = results_limit then
      match images.getLast? with
      | some lastImage =>
        paginateGo client params results_limit fuel (k + 1)
          (some lastImage.id_) (image_list ++ images) trace
      | none => some .indexError
    else
      some (.ok (image_list ++ images) trace)

/-- `ImagesBehaviors.list_images_pagination`: issue a first request with
the caller's marker, then keep requesting while each page's length equals
`config.results_limit`, advancing the marker to
`images[results_limit - 1].id_` and appending every page to the
accumulator; the final short page is appended too. -/
def list_images_pagination
    (client : Nat → ListImagesParams → Option String → List Image)
    (params : ListImagesParams) (results_limit : Nat)
    (marker : Option String) (fuel : Nat) : Option PagOutcome :=
  paginateGo client params results_limit fuel 0 marker [] []

/-- The marker the loop passes on its `j`-th request counting from the
request with index `k` that received marker `m`: the id of the last item
of each preceding page. -/
def markerFrom (client : Nat → ListImagesParams → Option String → List Image)
    (params : ListImagesParams) (k : Nat) (m : Option String) :
    Nat → Option String
  | 0 => m
  | j + 1 =>
    match (client (k + j) params (markerFrom client params k m j)).getLast? with
    | some lastImage => some lastImage.id_
    | none => none

/-- The page returned by the `j`-th request counting from request index
`k` started with marker `m`. -/
def pageFrom (client : Nat → ListImagesParams → Option String → List Image)
    (params : ListImagesParams) (k : Nat) (m : Option String) (j : Nat) :
    List Image :=
  client (k + j) params (markerFrom client params k m j)

/-! ## Image creation (`ImagesBehaviors.create_new_image`) -/

/-- Modelled from the spec: `ImageContainerFormat.BARE` from the missing
`types.py` module, the default container format. -/
def ImageContainerFormat.BARE : String := "bare"

/-- Modelled from the spec: `ImageDiskFormat.RAW` from the missing
`types.py` module, the default disk format. -/
def ImageDiskFormat.RAW : String := "raw"

/-- The delete callback registered with the resource pool
(`self.client.delete_image`). -/
inductive DeleteCallback where
  | delete_image
  deriving Repr, DecidableEq

/-- The keyword arguments of one `client.create_image` call. -/
structure CreateImageRequest where
  container_format : String
  disk_format : String
  name : String
  protected_ : Option Bool
  tags : Option (List String)
  visibility : Option String
  deriving Repr, DecidableEq

/-- Result of `create_new_image`: the returned entity, the resource pool
after the call (modelled from the spec: `ResourcePool.add` appends an
id/callback pair to the cleanup registry from the missing
`cloudcafe/common/resources.py`), and the trace of issued
`create_image` calls. -/
structure CreateNewImageResult where
  image : Option Image
  resources : List (String × DeleteCallback)
  calls : List CreateImageRequest
  deriving Repr, DecidableEq

/-- `ImagesBehaviors.create_new_image`: substitute defaults for omitted
arguments (`BARE`, `RAW`, and the freshly generated random name
`randName`, modelled from the spec for the missing `rand_name` helper),
issue one `create_image` call, and register the entity's id with the
delete callback when the entity is not `None`. -/
def create_new_image (client : CreateImageRequest → Option Image)
    (randName : String) (resources : List (String × DeleteCallback))
    (container_format disk_format name : Option String)
    (protected_ : Option Bool) (tags : Option (List String))
    (visibility : Option String) : CreateNewImageResult :=
  let cf := match container_format with
    | none => ImageContainerFormat.BARE
    | some v => v
  let df := match disk_format with
    | none => ImageDiskFormat.RAW
    | some v => v
  let nm := match name with
    | none => randName
    | some v => v
  let req : CreateImageRequest := ⟨cf, df, nm, protected_, tags, visibility⟩
  let image := client req
  let resources := match image with
    | some img => resources ++ [(img.id_, DeleteCallback.delete_image)]
    | none => resources
  ⟨image, resources, [req]⟩

/-! ## Status polling (`ImagesBehaviors.wait_for_image_status`) -/

/-- Modelled from the spec: `ImageStatus.ERROR` from the missing
`types.py` module; the spec calls it the error sentinel status `ERROR`,
and the code compares it case-insensitively. -/
def ImageStatus.ERROR : String := "ERROR"

/-- Python's `str.lower` on one character, for the ASCII range the status
strings live in. -/
def lowerChar (c : Char) : Char :=
  if 'A' ≤ c && c ≤ 'Z' then Char.ofNat (c.toNat + 32) else c

/-- Python's `str.lower`, as used by `image.status.lower()` and
`ImageStatus.ERROR.lower()` (ASCII lowercasing). -/
def pyLower (s : String) : String := ⟨s.data.map lowerChar⟩

/-- One `client.get_image` response. -/
structure GetImageResponse where
  entity : Image
  deriving Repr, DecidableEq, Inhabited

/-- Outcome of `wait_for_image_status`, each constructor recording how
many `get_image` fetches the run performed:

* `returned resp polls`: the loop broke on the desired status and the
  method returned `resp`, the response of the last fetch;
* `buildError polls`: `BuildErrorException` raised;
* `timeoutExn polls`: the while-else clause raised `TimeoutException`;
* `attrError polls`: the image's `status` was `None`, so `.lower()`
  raised `AttributeError`;
* `outOfFuel`: the model's fuel did not cover the run. -/
inductive WaitResult where
  | returned (resp : GetImageResponse) (polls : Nat)
  | buildError (polls : Nat)
  | timeoutExn (polls : Nat)
  | attrError (polls : Nat)
  | outOfFuel
  deriving Repr, DecidableEq

/-- The polling loop of `wait_for_image_status`.  Wall-clock time is
modelled as advancing by `interval_time` at each `time.sleep`, so at the
guard before iteration `k` the elapsed time is `k * interval_time` and
the guard `time.time() < end_time` reads `k * interval_time < timeout`.
Iteration `k` fetches the image, raises `BuildErrorException` when the
status compares equal to `ImageStatus.ERROR` case-insensitively, breaks
(returning the last response) when it equals `desired_status` exactly,
and otherwise sleeps; a false guard raises `TimeoutException`. -/
def waitGo (fetch : Nat → GetImageResponse) (desired_status : String)
    (interval_time timeout : Nat) : Nat → Nat → WaitResult
  | 0, _ => .outOfFuel
  | fuel + 1, k =>
    if k * interval_time < timeout then
      let image := (fetch k).entity
      match image.status with
      | none => .attrError (k + 1)
      | some s =>
        if pyLower s = pyLower ImageStatus.ERROR then .buildError (k + 1)
        else if s = desired_status then .returned (fetch k) (k + 1)
        else waitGo fetch desired_status interval_time timeout fuel (k + 1)
    else .timeoutExn k

/-- `ImagesBehaviors.wait_for_image_status`.  With a positive
`interval_time` the guard fails once `k` reaches `timeout`, so fuel
`timeout + 1` covers every such run. -/
def wait_for_image_status (fetch : Nat → GetImageResponse)
    (desired_status : String) (interval_time timeout : Nat) : WaitResult :=
  waitGo fetch desired_status interval_time timeout (timeout + 1) 0

/-! ## StackTach report lookup
(`StackTachBehavior.get_report_id_by_report_name`) -/

/-- A report entry from the `get_reports` response entity. -/
structure Report where
  name : String
  report_id : String
  deriving Repr, DecidableEq

/-- Outcome of `get_report_id_by_report_name`: the id returned from the
loop, `notFound` for the for-else branch that logs an error and returns
`None`, or the exception raised when the response entity is `None`. -/
inductive ReportLookup where
  | found (report_id : String)
  | notFound
  | raisedError
  deriving Repr, DecidableEq

/-- The `for report in reports` loop: return the first matching report's
id; falling off the end reaches the for-else branch. -/
def findReportId : List Report → String → Option String
  | [], _ => none
  | r :: rs, report_name =>
    if r.name = report_name then some r.report_id
    else findReportId rs report_name

/-- `StackTachBehavior.get_report_id_by_report_name`: raise when the
response entity is `None`; otherwise scan the reports for the first one
whose name equals `report_name`, and log-and-return-`None` when none
matches. -/
def get_report_id_by_report_name (reports : Option (List Report))
    (report_name : String) : ReportLookup :=
  match reports with
  | none => .raisedError
  | some rs =>
    match findReportId rs report_name with
    | some report_id => .found report_id
    | none => .notFound

/-- A minimal concrete image entity with a given id, used by the witness
runs below. -/
def mkIdImage (i : String) : Image where
  id_ := i
  status := none
  created_at := none
  updated_at := none
  file_ := none
  self_ := none
  schema := none
  min_disk := none
  min_ram := none
  protected_ := none

/-- The concrete client used by the pagination witnesses: a full page of
two images, then a short page of one. -/
def pagedClient : Nat → ListImagesParams → Option String → List Image
  | 0, _, _ => [mkIdImage "a", mkIdImage "b"]
  | 1, _, _ => [mkIdImage "c"]
  | _ + 2, _, _ => []

/-- The concrete client used by the C1 witness: one exactly-full page,
then the empty page the service returns to signal completion. -/
def exactClient : Nat → ListImagesParams → Option String → List Image
  | 0, _, _ => [mkIdImage "a", mkIdImage "b"]
  | _ + 1, _, _ => []

/-- The concrete client used by the C1 counterexample: a single page
longer than the configured limit. -/
def oversizeClient : Nat → ListImagesParams → Option String → List Image :=
  fun _ _ _ => [mkIdImage "a", mkIdImage "b", mkIdImage "c"]

/-- A minimal concrete image entity carrying a given status, used by the
witness runs below. -/
def mkStatusImage (st : Option String) : Image where
  id_ := "i"
  status := st
  created_at := none
  updated_at := none
  file_ := none
  self_ := none
  schema := none
  min_disk := none
  min_ram := none
  protected_ := none

/-! ## Theorems -/

/-- The report loop returns the id of the first report whose name
matches. -/
theorem findReportId_eq_find? (rs : List Report) (report_name : String) :
    findReportId rs report_name =
      (rs.find? (fun r => r.name == report_name)).map Report.report_id := by
  induction rs with
  | nil => rfl
  | cons r rs ih =>
    by_cases h : r.name = report_name
    · simp [findReportId, List.find?_cons, h]
    · simp [findReportId, List.find?_cons, h, ih]

/-- C9: for every reports list returned by the client,
`get_report_id_by_report_name` returns the `report_id` of the first
report whose name equals `report_name`; when no report matches it logs an
error and returns `None` (`notFound`); and when the response entity is
`None` it raises an `Exception` (`raisedError`). -/
theorem get_report_id_by_report_name_spec (reports : Option (List Report))
    (report_name : String) :
    get_report_id_by_report_name reports report_name =
      match reports with
      | none => ReportLookup.raisedError
      | some rs =>
        match rs.find? (fun r => r.name == report_name) with
        | some r => ReportLookup.found r.report_id
        | none => ReportLookup.notFound := by
  cases reports with
  | none => rfl
  | some rs =>
    simp only [get_report_id_by_report_name, findReportId_eq_find?]
    cases rs.find? (fun r => r.name == report_name) <;> rfl

/-- C8: `create_new_image` substitutes defaults for omitted arguments
(`BARE` container format, `RAW` disk format, the freshly generated random
name), issues exactly one `create_image` call, registers the created
image's id with the delete callback exactly when the response entity is
not `None`, returns the entity, and leaves the resource pool unchanged
when the entity is `None`. -/
theorem create_new_image_spec (client : CreateImageRequest → Option Image)
    (randName : String) (resources : List (String × DeleteCallback))
    (container_format disk_format name : Option String)
    (protected_ : Option Bool) (tags : Option (List String))
    (visibility : Option String) :
    (create_new_image client randName resources container_format
        disk_format name protected_ tags visibility).calls =
      [⟨container_format.getD ImageContainerFormat.BARE,
        disk_format.getD ImageDiskFormat.RAW,
        name.getD randName, protected_, tags, visibility⟩] ∧
    (create_new_image client randName resources container_format
        disk_format name protected_ tags visibility).image =
      client ⟨container_format.getD ImageContainerFormat.BARE,
        disk_format.getD ImageDiskFormat.RAW,
        name.getD randName, protected_, tags, visibility⟩ ∧
    (create_new_image client randName resources container_format
        disk_format name protected_ tags visibility).resources =
      (match client ⟨container_format.getD ImageContainerFormat.BARE,
          disk_format.getD ImageDiskFormat.RAW,
          name.getD randName, protected_, tags, visibility⟩ with
       | some img => resources ++ [(img.id_, DeleteCallback.delete_image)]
       | none => resources) := by
  cases container_format <;> cases disk_format <;> cases name <;>
    simp only [create_new_image, Option.getD_none, Option.getD_some] <;>
    exact ⟨trivial, trivial, trivial⟩

/-- Shifting the request index by one: the markers the loop uses from the
second request onward are the markers of the run started at the next
index with the first advanced marker. -/
theorem markerFrom_shift
    (client : Nat → ListImagesParams → Option String → List Image)
    (params : ListImagesParams) (k : Nat) (m : Option String) :
    ∀ j, markerFrom client params (k + 1) (markerFrom client params k m 1) j =
      markerFrom client params k m (j + 1) := by
  intro j
  induction j with
  | zero => rfl
  | succ j ih =>
    show (match (client (k + 1 + j) params
        (markerFrom client params (k + 1)
          (markerFrom client params k m 1) j)).getLast? with
      | some lastImage => some lastImage.id_
      | none => none) = markerFrom client params k m (j + 1 + 1)
    rw [ih, show k + 1 + j = k + (j + 1) from by omega]
    rfl

/-- The page shift corresponding to `markerFrom_shift`. -/
theorem pageFrom_shift
    (client : Nat → ListImagesParams → Option String → List Image)
    (params : ListImagesParams) (k : Nat) (m : Option String) (j : Nat) :
    pageFrom client params (k + 1) (markerFrom client params k m 1) j =
      pageFrom client params k m (j + 1) := by
  rw [pageFrom, pageFrom, markerFrom_shift,
    show k + 1 + j = k + (j + 1) from by omega]

/-- Full characterization of the pagination loop on a terminating run:
if the first `n` pages are exactly full-size and page `n` is not, the
loop returns the in-order concatenation of all `n + 1` pages and a trace
of `n + 1` requests, each carrying the unchanged filter parameters and
the advanced marker. -/
theorem paginateGo_spec
    (client : Nat → ListImagesParams → Option String → List Image)
    (params : ListImagesParams) (results_limit : Nat)
    (hlim : 1 ≤ results_limit) :
    ∀ n k fuel m image_list trace, n < fuel →
      (∀ j, j < n →
        (pageFrom client params k m j).length = results_limit) →
      (pageFrom client params k m n).length ≠ results_limit →
      paginateGo client params results_limit fuel k m image_list trace =
        some (.ok
          (image_list ++
            (List.range (n + 1)).flatMap (pageFrom client params k m))
          (trace ++ (List.range (n + 1)).map
            fun j => ⟨params, markerFrom client params k m j⟩)) := by
  intro n
  induction n with
  | zero =>
    intro k fuel m image_list trace hfuel _ hstop
    obtain ⟨fuel, rfl⟩ : ∃ f, fuel = f + 1 := ⟨fuel - 1, by omega⟩
    have hstop0 : (client k params m).length ≠ results_limit := hstop
    have hr1 : List.range 1 = [0] := rfl
    simp [paginateGo, hstop0, hr1, pageFrom, markerFrom]
  | succ n ih =>
    intro k fuel m image_list trace hfuel hfull hstop
    obtain ⟨fuel, rfl⟩ : ∃ f, fuel = f + 1 := ⟨fuel - 1, by omega⟩
    have h0 : (client k params m).length = results_limit :=
      hfull 0 (Nat.succ_pos n)
    obtain ⟨lastImage, hlast⟩ :
        ∃ l, (client k params m).getLast? = some l := by
      cases h : (client k params m).getLast? with
      | none =>
        rw [List.getLast?_eq_none_iff] at h
        rw [h] at h0
        simp at h0
        omega
      | some l => exact ⟨l, rfl⟩
    have hm1 : some lastImage.id_ = markerFrom client params k m 1 := by
      show _ = (match (client (k + 0) params
        (markerFrom client params k m 0)).getLast? with
        | some lastImage => some lastImage.id_
        | none => none)
      rw [show k + 0 = k from rfl]
      show _ = (match (client k params m).getLast? with
        | some lastImage => some lastImage.id_
        | none => none)
      rw [hlast]
    have step : paginateGo client params results_limit (fuel + 1) k m
          image_list trace =
        paginateGo client params results_limit fuel (k + 1)
          (markerFrom client params k m 1) (image_list ++ client k params m)
          (trace ++ [ListRequest.mk params m]) := by
      rw [← hm1]
      simp [paginateGo, h0, hlast]
    rw [step, ih (k + 1) fuel (markerFrom client params k m 1)
      (image_list ++ client k params m) (trace ++ [ListRequest.mk params m])
      (by omega)
      (fun j hj => by rw [pageFrom_shift]; exact hfull (j + 1) (by omega))
      (by rw [pageFrom_shift]; exact hstop)]
    have hpages : ∀ j,
        pageFrom client params (k + 1) (markerFrom client params k m 1) j =
          pageFrom client params k m (j + 1) :=
      pageFrom_shift client params k m
    have hmarkers : ∀ j,
        markerFrom client params (k + 1) (markerFrom client params k m 1) j =
          markerFrom client params k m (j + 1) :=
      markerFrom_shift client params k m
    have hpage0 : pageFrom client params k m 0 = client k params m := rfl
    have hmarker0 : markerFrom client params k m 0 = m := rfl
    simp only [hpages, hmarkers, List.range_succ_eq_map, List.flatMap_cons,
      List.flatMap_map, List.map_cons, List.map_map, List.append_assoc,
      hpage0, hmarker0, Function.comp]
    rfl

/-- C5: on every terminating run (first `n` pages full-size, page `n`
not), `list_images_pagination` returns the in-order concatenation of all
returned pages including the final short page, and the issued requests
carry the unchanged filter parameters with the marker advanced according
to `markerFrom` — before each repeated request, to the `id_` of the last
item of the current full page. -/
theorem list_images_pagination_accumulates
    (client : Nat → ListImagesParams → Option String → List Image)
    (params : ListImagesParams) (results_limit : Nat)
    (marker : Option String) (fuel n : Nat)
    (hlim : 1 ≤ results_limit) (hfuel : n < fuel)
    (hfull : ∀ j, j < n →
      (pageFrom client params 0 marker j).length = results_limit)
    (hstop : (pageFrom client params 0 marker n).length ≠ results_limit) :
    list_images_pagination client params results_limit marker fuel =
      some (.ok
        ((List.range (n + 1)).flatMap (pageFrom client params 0 marker))
        ((List.range (n + 1)).map
          fun j => ⟨params, markerFrom client params 0 marker j⟩)) ∧
    ∀ j, j < n → ∃ l,
      (pageFrom client params 0 marker j).getLast? = some l ∧
      markerFrom client params 0 marker (j + 1) = some l.id_ := by
  constructor
  · rw [list_images_pagination,
      paginateGo_spec client params results_limit hlim n 0 fuel marker
        [] [] hfuel hfull hstop]
    simp
  · intro j hj
    have hlen := hfull j hj
    obtain ⟨l, hl⟩ : ∃ l, (pageFrom client params 0 marker j).getLast? =
        some l := by
      cases h : (pageFrom client params 0 marker j).getLast? with
      | none =>
        rw [List.getLast?_eq_none_iff] at h
        rw [h] at hlen
        simp at hlen
        omega
      | some l => exact ⟨l, rfl⟩
    refine ⟨l, hl, ?_⟩
    show (match (client (0 + j) params
        (markerFrom client params 0 marker j)).getLast? with
      | some lastImage => some lastImage.id_
      | none => none) = some l.id_
    have hl' : (client (0 + j) params
        (markerFrom client params 0 marker j)).getLast? = some l := hl
    rw [hl']

/-- C5 witness: with `results_limit = 2`, pages `[a, b]` then `[c]`, the
run returns `[a, b, c]` and issues two requests, the second with marker
`b`. -/
theorem list_images_pagination_accumulates_witness :
    list_images_pagination pagedClient {} 2 none 10 =
      some (.ok
        ((List.range 2).flatMap (pageFrom pagedClient {} 0 none))
        ((List.range 2).map
          fun j => ⟨{}, markerFrom pagedClient {} 0 none j⟩)) :=
  (list_images_pagination_accumulates pagedClient {} 2 none 10 1
    (by decide) (by decide)
    (fun j hj => by interval_cases j; rfl)
    (by decide)).1

/-- C1 (amended): another listing request is issued after a page exactly
when that page's length equals `results_limit`: on a run whose first `n`
pages are full-size and whose page `n` is not, exactly `n + 1` requests
are issued — in particular, when the final nonempty page's length equals
the limit, one extra request is issued — and when the extra request
returns an empty page, that page ends the loop without changing the
accumulated result. -/
theorem list_images_pagination_request_count
    (client : Nat → ListImagesParams → Option String → List Image)
    (params : ListImagesParams) (results_limit : Nat)
    (marker : Option String) (fuel n : Nat)
    (hlim : 1 ≤ results_limit) (hfuel : n < fuel)
    (hfull : ∀ j, j < n →
      (pageFrom client params 0 marker j).length = results_limit)
    (hstop : (pageFrom client params 0 marker n).length ≠ results_limit) :
    ∃ image_list requests,
      list_images_pagination client params results_limit marker fuel =
        some (.ok image_list requests) ∧
      requests.length = n + 1 ∧
      (pageFrom client params 0 marker n = [] →
        image_list = (List.range n).flatMap (pageFrom client params 0 marker)) := by
  refine ⟨(List.range (n + 1)).flatMap (pageFrom client params 0 marker),
    (List.range (n + 1)).map
      (fun j => ListRequest.mk params (markerFrom client params 0 marker j)),
    ?_, by simp, ?_⟩
  · rw [list_images_pagination,
      paginateGo_spec client params results_limit hlim n 0 fuel marker
        [] [] hfuel hfull hstop]
    simp
  · intro hempty
    rw [List.range_succ, List.flatMap_append]
    simp [hempty]

/-- C1 witness: a single exactly-full page of size 2 under
`results_limit = 2` causes one extra request; the empty page it returns
ends the loop and leaves the accumulated list at the first page's
contents. -/
theorem list_images_pagination_request_count_witness :
    ∃ image_list requests,
      list_images_pagination exactClient {} 2 none 10 =
        some (.ok image_list requests) ∧
      requests.length = 1 + 1 ∧
      (pageFrom exactClient {} 0 none 1 = [] →
        image_list = (List.range 1).flatMap (pageFrom exactClient {} 0 none)) :=
  list_images_pagination_request_count exactClient {} 2 none 10 1
    (by decide) (by decide)
    (fun j hj => by interval_cases j; rfl)
    (by decide)

/-- C1 counterexample: a first page of length 3 under `results_limit = 2`
is not strictly shorter than the limit, yet the loop stops after that
single request — the claim that another request is issued whenever the
page's length is not strictly less than `results_limit` fails, because
the loop condition is equality with the limit, not length at least the
limit. -/
theorem list_images_pagination_not_lt_counterexample :
    ¬ (oversizeClient 0 {} none).length < 2 ∧
    list_images_pagination oversizeClient {} 2 none 10 =
      some (.ok [mkIdImage "a", mkIdImage "b", mkIdImage "c"]
        [ListRequest.mk {} none]) :=
  ⟨by decide, rfl⟩

/-- One polling iteration that falls through every check (guard true,
status present, not the error sentinel, not the desired status) recurses
on the next iteration. -/
theorem waitGo_step (fetch : Nat → GetImageResponse) (desired_status : String)
    (interval_time timeout fuel k : Nat) (s : String)
    (hguard : k * interval_time < timeout)
    (hs : (fetch k).entity.status = some s)
    (herr : pyLower s ≠ pyLower ImageStatus.ERROR)
    (hdes : s ≠ desired_status) :
    waitGo fetch desired_status interval_time timeout (fuel + 1) k =
      waitGo fetch desired_status interval_time timeout fuel (k + 1) := by
  simp [waitGo, hguard, hs, herr, hdes]

/-- When every iteration before `k` falls through, the polling loop
reaches iteration `k` with fuel to spare. -/
theorem waitGo_reach (fetch : Nat → GetImageResponse) (desired_status : String)
    (interval_time timeout k : Nat)
    (hint : 1 ≤ interval_time)
    (hprev : ∀ j, j < k → j * interval_time < timeout ∧
      ∃ t, (fetch j).entity.status = some t ∧
        pyLower t ≠ pyLower ImageStatus.ERROR ∧ t ≠ desired_status) :
    waitGo fetch desired_status interval_time timeout (timeout + 1) 0 =
      waitGo fetch desired_status interval_time timeout (timeout + 1 - k) k := by
  induction k with
  | zero => rfl
  | succ k ih =>
    obtain ⟨hguard, t, hs, herr, hdes⟩ := hprev k (Nat.lt_succ_self k)
    have hkt : k < timeout :=
      lt_of_le_of_lt (Nat.le_mul_of_pos_right k hint) hguard
    have hsub : timeout + 1 - k = (timeout - k) + 1 := by omega
    rw [ih (fun j hj => hprev j (hj.trans (Nat.lt_succ_self k))), hsub,
      waitGo_step fetch desired_status interval_time timeout
        (timeout - k) k t hguard hs herr hdes]
    congr 1
    omega

/-- C2: whenever the fetched image's status compares equal to the error
sentinel `ERROR` case-insensitively, `wait_for_image_status` raises
`BuildErrorException` immediately: the run ends at that fetch, having
performed exactly `k + 1` fetches and no further polling. -/
theorem wait_for_image_status_build_error (fetch : Nat → GetImageResponse)
    (desired_status : String) (interval_time timeout k : Nat) (s : String)
    (hint : 1 ≤ interval_time)
    (hprev : ∀ j, j < k → j * interval_time < timeout ∧
      ∃ t, (fetch j).entity.status = some t ∧
        pyLower t ≠ pyLower ImageStatus.ERROR ∧ t ≠ desired_status)
    (hguard : k * interval_time < timeout)
    (hs : (fetch k).entity.status = some s)
    (herr : pyLower s = pyLower ImageStatus.ERROR) :
    wait_for_image_status fetch desired_status interval_time timeout =
      WaitResult.buildError (k + 1) := by
  rw [wait_for_image_status,
    waitGo_reach fetch desired_status interval_time timeout k hint hprev]
  have hkt : k < timeout :=
    lt_of_le_of_lt (Nat.le_mul_of_pos_right k hint) hguard
  rw [show timeout + 1 - k = (timeout - k) + 1 from by omega]
  simp [waitGo, hguard, hs, herr]

/-- C2 witness: a fetch whose first status is `ERROR` makes the run raise
`BuildErrorException` after exactly one fetch. -/
theorem wait_for_image_status_build_error_witness :
    wait_for_image_status (fun _ => ⟨mkStatusImage (some "ERROR")⟩)
      "active" 1 5 = WaitResult.buildError 1 :=
  wait_for_image_status_build_error _ "active" 1 5 0 "ERROR"
    (by decide) (fun j hj => absurd hj (by omega)) (by decide) rfl rfl

/-- C4: when the fetched image's status equals `desired_status` under
exact string equality and is not case-insensitively the error sentinel,
`wait_for_image_status` stops polling and returns the response object of
that most recent fetch. -/
theorem wait_for_image_status_returns_last_fetch
    (fetch : Nat → GetImageResponse)
    (desired_status : String) (interval_time timeout k : Nat) (s : String)
    (hint : 1 ≤ interval_time)
    (hprev : ∀ j, j < k → j * interval_time < timeout ∧
      ∃ t, (fetch j).entity.status = some t ∧
        pyLower t ≠ pyLower ImageStatus.ERROR ∧ t ≠ desired_status)
    (hguard : k * interval_time < timeout)
    (hs : (fetch k).entity.status = some s)
    (herr : pyLower s ≠ pyLower ImageStatus.ERROR)
    (hdes : s = desired_status) :
    wait_for_image_status fetch desired_status interval_time timeout =
      WaitResult.returned (fetch k) (k + 1) := by
  rw [wait_for_image_status,
    waitGo_reach fetch desired_status interval_time timeout k hint hprev]
  subst hdes
  have hkt : k < timeout :=
    lt_of_le_of_lt (Nat.le_mul_of_pos_right k hint) hguard
  rw [show timeout + 1 - k = (timeout - k) + 1 from by omega]
  simp [waitGo, hguard, hs, herr]

/-- C4 witness: a first poll observing status `queued`, then a poll
observing the desired status `active`, returns the second response. -/
theorem wait_for_image_status_returns_last_fetch_witness :
    wait_for_image_status
      (fun k => ⟨mkStatusImage (some (if k = 0 then "queued" else "active"))⟩)
      "active" 1 5 =
      WaitResult.returned ⟨mkStatusImage (some "active")⟩ 2 :=
  wait_for_image_status_returns_last_fetch _ "active" 1 5 1 "active"
    (by decide)
    (fun j hj => by
      interval_cases j
      exact ⟨by decide, "queued", rfl, by decide, by decide⟩)
    (by decide) rfl (by decide) rfl

/-- The polling loop with enough fuel and no firing check raises
`TimeoutException` after a bounded number of fetches. -/
theorem waitGo_timeout_aux (fetch : Nat → GetImageResponse)
    (desired_status : String) (interval_time timeout : Nat)
    (hint : 1 ≤ interval_time)
    (hall : ∀ j, j * interval_time < timeout →
      ∃ t, (fetch j).entity.status = some t ∧
        pyLower t ≠ pyLower ImageStatus.ERROR ∧ t ≠ desired_status) :
    ∀ fuel k, timeout + 1 ≤ k + fuel → k ≤ timeout →
      ∃ N, waitGo fetch desired_status interval_time timeout fuel k =
        WaitResult.timeoutExn N ∧ N ≤ timeout := by
  intro fuel
  induction fuel with
  | zero => intro k h1 h2; omega
  | succ fuel ih =>
    intro k h1 h2
    by_cases hguard : k * interval_time < timeout
    · obtain ⟨t, hs, herr, hdes⟩ := hall k hguard
      rw [waitGo_step fetch desired_status interval_time timeout fuel k t
        hguard hs herr hdes]
      have hkt : k < timeout :=
        lt_of_le_of_lt (Nat.le_mul_of_pos_right k hint) hguard
      exact ih (k + 1) (by omega) (by omega)
    · exact ⟨k, by simp [waitGo, hguard], h2⟩

/-- C3: when no observed status equals the desired status and none
case-insensitively equals the error sentinel while the guard holds,
`wait_for_image_status` raises `TimeoutException` rather than returning,
after finitely many fetches (at most `timeout`, for any positive
interval). -/
theorem wait_for_image_status_timeout (fetch : Nat → GetImageResponse)
    (desired_status : String) (interval_time timeout : Nat)
    (hint : 1 ≤ interval_time)
    (hall : ∀ j, j * interval_time < timeout →
      ∃ t, (fetch j).entity.status = some t ∧
        pyLower t ≠ pyLower ImageStatus.ERROR ∧ t ≠ desired_status) :
    ∃ N, wait_for_image_status fetch desired_status interval_time timeout =
      WaitResult.timeoutExn N ∧ N ≤ timeout :=
  waitGo_timeout_aux fetch desired_status interval_time timeout hint hall
    (timeout + 1) 0 (by omega) (by omega)

/-- C3 witness: a resource that stays `saving` forever times out under a
2-second interval and 5-second timeout. -/
theorem wait_for_image_status_timeout_witness :
    ∃ N, wait_for_image_status (fun _ => ⟨mkStatusImage (some "saving")⟩)
      "active" 2 5 = WaitResult.timeoutExn N ∧ N ≤ 5 :=
  wait_for_image_status_timeout _ "active" 2 5 (by decide)
    (fun j _ => ⟨"saving", rfl, by decide, by decide⟩)

/-- No run of the polling loop returns a response whose status
case-insensitively equals the error sentinel: the error check precedes
the desired-status check on every iteration. -/
theorem waitGo_returned_not_error (fetch : Nat → GetImageResponse)
    (desired_status : String) (interval_time timeout : Nat) :
    ∀ fuel k resp polls,
      waitGo fetch desired_status interval_time timeout fuel k =
        WaitResult.returned resp polls →
      ∀ s, resp.entity.status = some s →
        pyLower s ≠ pyLower ImageStatus.ERROR := by
  intro fuel
  induction fuel with
  | zero => intro k resp polls h; simp [waitGo] at h
  | succ fuel ih =>
    intro k resp polls h s hs
    by_cases hguard : k * interval_time < timeout
    · match hst : (fetch k).entity.status with
      | none => simp [waitGo, hguard, hst] at h
      | some t =>
        by_cases herr : pyLower t = pyLower ImageStatus.ERROR
        · simp [waitGo, hguard, hst, herr] at h
        · by_cases hdes : t = desired_status
          · subst hdes
            simp [waitGo, hguard, hst, herr] at h
            obtain ⟨hresp, -⟩ := h
            rw [← hresp, hst] at hs
            cases hs
            exact herr
          · rw [waitGo_step fetch desired_status interval_time timeout
              fuel k t hguard hst herr hdes] at h
            exact ih (k + 1) resp polls h s hs
    · simp [waitGo, hguard] at h

/-- C10: `wait_for_image_status` never returns a response whose image
status case-insensitively equals the error sentinel `ERROR` — even when
`desired_status` itself is the error sentinel, the error check fires
first and the run raises `BuildErrorException` instead of returning. -/
theorem wait_for_image_status_never_returns_error
    (fetch : Nat → GetImageResponse) (desired_status : String)
    (interval_time timeout : Nat) (resp : GetImageResponse) (polls : Nat)
    (h : wait_for_image_status fetch desired_status interval_time timeout =
      WaitResult.returned resp polls)
    (s : String) (hs : resp.entity.status = some s) :
    pyLower s ≠ pyLower ImageStatus.ERROR :=
  waitGo_returned_not_error fetch desired_status interval_time timeout
    (timeout + 1) 0 resp polls h s hs

/-- C10 witness: a successful run returning status `active` indeed has a
status that is not the error sentinel. -/
theorem wait_for_image_status_never_returns_error_witness :
    pyLower "active" ≠ pyLower ImageStatus.ERROR :=
  wait_for_image_status_never_returns_error
    (fun _ => ⟨mkStatusImage (some "active")⟩) "active" 1 5
    ⟨mkStatusImage (some "active")⟩ 1 rfl "active" rfl

/-- Commuting a conditional append into an appended conditional: the
shape of one accumulation step of `validate_image`. -/
theorem appendIf (c : Prop) [Decidable c] (xs : List String) (m : String) :
    (if c then xs ++ [m] else xs) = xs ++ (if c then [m] else []) := by
  split <;> simp

/-- `validate_image` as the in-order concatenation of its ten per-field
checks, each contributing its one message exactly when it fails. -/
theorem validate_image_unfold (image : Image) :
    validate_image image =
      (if image.created_at = none then [errorMsg "created_at" "True" "None"] else []) ++
      (if image.file_ ≠ some ("/v2/images/" ++ image.id_ ++ "/file") then
        [errorMsg "file_" ("/v2/images/" ++ image.id_ ++ "/file") (pyStr image.file_)] else []) ++
      (if idRegexMatch image.id_ = false then [errorMsg "id_" "True" "None"] else []) ++
      (if image.min_disk = none then [errorMsg "min_disk" "True" "None"] else []) ++
      (if image.min_ram = none then [errorMsg "min_ram" "True" "None"] else []) ++
      (if image.protected_ = none then [errorMsg "protected" "True" "None"] else []) ++
      (if image.schema ≠ some Schemas.IMAGE_SCHEMA then
        [errorMsg "schema" Schemas.IMAGE_SCHEMA (pyStr image.schema)] else []) ++
      (if image.self_ ≠ some ("/v2/images/" ++ image.id_) then
        [errorMsg "schema" ("/v2/images/" ++ image.id_) (pyStr image.self_)] else []) ++
      (if image.status = none then [errorMsg "status" "True" "None"] else []) ++
      (if image.updated_at = none then [errorMsg "updated_at" "True" "None"] else []) := by
  simp only [validate_image, appendIf, List.nil_append]



/-- The length of one check contribution is its failure indicator. -/
theorem ite_singleton_length (c : Prop) [Decidable c] (m : String) :
    (if c then [m] else ([] : List String)).length = if c then 1 else 0 := by
  split <;> rfl

/-- C6: for every image entity, `validate_image` does not fail fast: it
evaluates all ten field checks, appending exactly one human-readable
mismatch message per failed check (the returned list length is the
number of failed checks), and the returned list is empty if and only if
every check passes. -/
theorem validate_image_accumulates (image : Image) :
    (validate_image image).length =
      ((if image.created_at = none then 1 else 0) +
       (if image.file_ ≠ some ("/v2/images/" ++ image.id_ ++ "/file") then 1 else 0) +
       (if idRegexMatch image.id_ = false then 1 else 0) +
       (if image.min_disk = none then 1 else 0) +
       (if image.min_ram = none then 1 else 0) +
       (if image.protected_ = none then 1 else 0) +
       (if image.schema ≠ some Schemas.IMAGE_SCHEMA then 1 else 0) +
       (if image.self_ ≠ some ("/v2/images/" ++ image.id_) then 1 else 0) +
       (if image.status = none then 1 else 0) +
       (if image.updated_at = none then 1 else 0)) ∧
    (validate_image image = [] ↔
      (image.created_at ≠ none ∧
       image.file_ = some ("/v2/images/" ++ image.id_ ++ "/file") ∧
       idRegexMatch image.id_ = true ∧
       image.min_disk ≠ none ∧
       image.min_ram ≠ none ∧
       image.protected_ ≠ none ∧
       image.schema = some Schemas.IMAGE_SCHEMA ∧
       image.self_ = some ("/v2/images/" ++ image.id_) ∧
       image.status ≠ none ∧
       image.updated_at ≠ none)) := by
  constructor
  · rw [validate_image_unfold]
    simp only [List.length_append, ite_singleton_length]
  · rw [validate_image_unfold]
    simp only [List.append_eq_nil, ite_eq_right_iff, List.cons_ne_nil,
      imp_false, not_not, Bool.not_eq_false, and_assoc]



/-- Two strings differing at one position differ. -/
theorem string_ne_of_data_getD {s t : String} (i : Nat)
    (h : s.data.getD i 'A' ≠ t.data.getD i 'A') : s ≠ t :=
  fun he => h (by rw [he])

/-- The character data of a formatted mismatch message, split at its
literal segments. -/
theorem errorMsg_data (f e r : String) :
    (errorMsg f e r).data =
      "Unexpected ".data ++ (f.data ++ (" value received. Expected: ".data ++
        (e.data ++ (", Received: ".data ++ r.data)))) := by
  simp [errorMsg, String.data_append]

/-- Mismatch messages about fields whose names differ at some position
are distinct, whatever the expected and received values. -/
theorem errorMsg_ne_of_field (f₁ e₁ r₁ f₂ e₂ r₂ : String) (i : Nat)
    (h₁ : i < f₁.data.length) (h₂ : i < f₂.data.length)
    (hne : f₁.data.getD i 'A' ≠ f₂.data.getD i 'A') :
    errorMsg f₁ e₁ r₁ ≠ errorMsg f₂ e₂ r₂ := by
  have h11 : ("Unexpected ".data).length = 11 := by decide
  apply string_ne_of_data_getD (11 + i)
  rw [errorMsg_data, errorMsg_data]
  rw [List.getD_append_right ("Unexpected ".data) _ _ (11 + i) (by omega)]
  rw [List.getD_append_right ("Unexpected ".data) _ _ (11 + i) (by omega)]
  rw [show 11 + i - ("Unexpected ".data).length = i from by omega]
  rw [List.getD_append _ _ _ i h₁, List.getD_append _ _ _ i h₂]
  exact hne




/-- The schema-check message and the self-link-check message share the
mislabeled field name `schema` but differ inside their expected values:
a schemas URL against an images URL. -/
theorem schemaMsg_ne_selfMsg (sch mid slf : String) :
    errorMsg "schema" Schemas.IMAGE_SCHEMA sch ≠
      errorMsg "schema" ("/v2/images/" ++ mid) slf := by
  have h11 : ("Unexpected ".data).length = 11 := by decide
  have h6 : (("schema" : String).data).length = 6 := by decide
  have h27 : ((" value received. Expected: " : String).data).length = 27 := by decide
  have h17 : ((Schemas.IMAGE_SCHEMA : String).data).length = 17 := by decide
  have h11b : (("/v2/images/" : String).data).length = 11 := by decide
  apply string_ne_of_data_getD 48
  rw [errorMsg_data, errorMsg_data, String.data_append]
  rw [List.getD_append_right ("Unexpected ".data) _ _ 48 (by omega)]
  rw [List.getD_append_right ("Unexpected ".data) _ _ 48 (by omega)]
  rw [show 48 - ("Unexpected ".data).length = 37 from by omega]
  rw [List.getD_append_right (("schema" : String).data) _ _ 37 (by omega)]
  rw [List.getD_append_right (("schema" : String).data) _ _ 37 (by omega)]
  rw [show 37 - (("schema" : String).data).length = 31 from by omega]
  rw [List.getD_append_right ((" value received. Expected: " : String).data)
    _ _ 31 (by omega)]
  rw [List.getD_append_right ((" value received. Expected: " : String).data)
    _ _ 31 (by omega)]
  rw [show 31 - ((" value received. Expected: " : String).data).length = 4
    from by omega]
  rw [List.getD_append (Schemas.IMAGE_SCHEMA.data) _ _ 4 (by omega)]
  rw [List.getD_append (("/v2/images/" : String).data ++ mid.data) _ _ 4
    (by rw [List.length_append]; omega)]
  rw [List.getD_append (("/v2/images/" : String).data) _ _ 4 (by omega)]
  decide



/-- Membership in one check contribution: the check fails and the member
is its message. -/
theorem mem_ite_singleton (x m : String) (c : Prop) [Decidable c] :
    (x ∈ (if c then [m] else ([] : List String))) ↔ c ∧ x = m := by
  split <;> rename_i h <;> simp [h]

/-- C7: `validate_image` records a violation for the id field iff `id_`
fails to match the UUID regex `ImageProperties.ID_REGEX`, for the schema
field iff `schema` differs from the expected image schema URL constant,
and for the self-link and file-link fields iff `self_` differs from
`/v2/images/{id}` and `file_` differs from `/v2/images/{id}/file`, each
templated from the entity own `id_`. -/
theorem validate_image_field_rules (image : Image) :
    (errorMsg "id_" "True" "None" ∈ validate_image image ↔
      idRegexMatch image.id_ = false) ∧
    (errorMsg "schema" Schemas.IMAGE_SCHEMA (pyStr image.schema) ∈
        validate_image image ↔
      image.schema ≠ some Schemas.IMAGE_SCHEMA) ∧
    (errorMsg "schema" ("/v2/images/" ++ image.id_) (pyStr image.self_) ∈
        validate_image image ↔
      image.self_ ≠ some ("/v2/images/" ++ image.id_)) ∧
    (errorMsg "file_" ("/v2/images/" ++ image.id_ ++ "/file")
        (pyStr image.file_) ∈ validate_image image ↔
      image.file_ ≠ some ("/v2/images/" ++ image.id_ ++ "/file")) := by
  have h_i_c : ∀ e₁ r₁ e₂ r₂ : String,
      errorMsg "id_" e₁ r₁ ≠ errorMsg "created_at" e₂ r₂ :=
    fun e₁ r₁ e₂ r₂ => errorMsg_ne_of_field "id_" e₁ r₁
      "created_at" e₂ r₂ 0 (by decide) (by decide) (by decide)
  have h_i_f : ∀ e₁ r₁ e₂ r₂ : String,
      errorMsg "id_" e₁ r₁ ≠ errorMsg "file_" e₂ r₂ :=
    fun e₁ r₁ e₂ r₂ => errorMsg_ne_of_field "id_" e₁ r₁
      "file_" e₂ r₂ 0 (by decide) (by decide) (by decide)
  have h_i_d : ∀ e₁ r₁ e₂ r₂ : String,
      errorMsg "id_" e₁ r₁ ≠ errorMsg "min_disk" e₂ r₂ :=
    fun e₁ r₁ e₂ r₂ => errorMsg_ne_of_field "id_" e₁ r₁
      "min_disk" e₂ r₂ 0 (by decide) (by decide) (by decide)
  have h_i_r : ∀ e₁ r₁ e₂ r₂ : String,
      errorMsg "id_" e₁ r₁ ≠ errorMsg "min_ram" e₂ r₂ :=
    fun e₁ r₁ e₂ r₂ => errorMsg_ne_of_field "id_" e₁ r₁
      "min_ram" e₂ r₂ 0 (by decide) (by decide) (by decide)
  have h_i_p : ∀ e₁ r₁ e₂ r₂ : String,
      errorMsg "id_" e₁ r₁ ≠ errorMsg "protected" e₂ r₂ :=
    fun e₁ r₁ e₂ r₂ => errorMsg_ne_of_field "id_" e₁ r₁
      "protected" e₂ r₂ 0 (by decide) (by decide) (by decide)
  have h_i_s : ∀ e₁ r₁ e₂ r₂ : String,
      errorMsg "id_" e₁ r₁ ≠ errorMsg "schema" e₂ r₂ :=
    fun e₁ r₁ e₂ r₂ => errorMsg_ne_of_field "id_" e₁ r₁
      "schema" e₂ r₂ 0 (by decide) (by decide) (by decide)
  have h_i_t : ∀ e₁ r₁ e₂ r₂ : String,
      errorMsg "id_" e₁ r₁ ≠ errorMsg "status" e₂ r₂ :=
    fun e₁ r₁ e₂ r₂ => errorMsg_ne_of_field "id_" e₁ r₁
      "status" e₂ r₂ 0 (by decide) (by decide) (by decide)
  have h_i_u : ∀ e₁ r₁ e₂ r₂ : String,
      errorMsg "id_" e₁ r₁ ≠ errorMsg "updated_at" e₂ r₂ :=
    fun e₁ r₁ e₂ r₂ => errorMsg_ne_of_field "id_" e₁ r₁
      "updated_at" e₂ r₂ 0 (by decide) (by decide) (by decide)
  have h_f_c : ∀ e₁ r₁ e₂ r₂ : String,
      errorMsg "file_" e₁ r₁ ≠ errorMsg "created_at" e₂ r₂ :=
    fun e₁ r₁ e₂ r₂ => errorMsg_ne_of_field "file_" e₁ r₁
      "created_at" e₂ r₂ 0 (by decide) (by decide) (by decide)
  have h_f_i : ∀ e₁ r₁ e₂ r₂ : String,
      errorMsg "file_" e₁ r₁ ≠ errorMsg "id_" e₂ r₂ :=
    fun e₁ r₁ e₂ r₂ => errorMsg_ne_of_field "file_" e₁ r₁
      "id_" e₂ r₂ 0 (by decide) (by decide) (by decide)
  have h_f_d : ∀ e₁ r₁ e₂ r₂ : String,
      errorMsg "file_" e₁ r₁ ≠ errorMsg "min_disk" e₂ r₂ :=
    fun e₁ r₁ e₂ r₂ => errorMsg_ne_of_field "file_" e₁ r₁
      "min_disk" e₂ r₂ 0 (by decide) (by decide) (by decide)
  have h_f_r : ∀ e₁ r₁ e₂ r₂ : String,
      errorMsg "file_" e₁ r₁ ≠ errorMsg "min_ram" e₂ r₂ :=
    fun e₁ r₁ e₂ r₂ => errorMsg_ne_of_field "file_" e₁ r₁
      "min_ram" e₂ r₂ 0 (by decide) (by decide) (by decide)
  have h_f_p : ∀ e₁ r₁ e₂ r₂ : String,
      errorMsg "file_" e₁ r₁ ≠ errorMsg "protected" e₂ r₂ :=
    fun e₁ r₁ e₂ r₂ => errorMsg_ne_of_field "file_" e₁ r₁
      "protected" e₂ r₂ 0 (by decide) (by decide) (by decide)
  have h_f_s : ∀ e₁ r₁ e₂ r₂ : String,
      errorMsg "file_" e₁ r₁ ≠ errorMsg "schema" e₂ r₂ :=
    fun e₁ r₁ e₂ r₂ => errorMsg_ne_of_field "file_" e₁ r₁
      "schema" e₂ r₂ 0 (by decide) (by decide) (by decide)
  have h_f_t : ∀ e₁ r₁ e₂ r₂ : String,
      errorMsg "file_" e₁ r₁ ≠ errorMsg "status" e₂ r₂ :=
    fun e₁ r₁ e₂ r₂ => errorMsg_ne_of_field "file_" e₁ r₁
      "status" e₂ r₂ 0 (by decide) (by decide) (by decide)
  have h_f_u : ∀ e₁ r₁ e₂ r₂ : String,
      errorMsg "file_" e₁ r₁ ≠ errorMsg "updated_at" e₂ r₂ :=
    fun e₁ r₁ e₂ r₂ => errorMsg_ne_of_field "file_" e₁ r₁
      "updated_at" e₂ r₂ 0 (by decide) (by decide) (by decide)
  have h_s_c : ∀ e₁ r₁ e₂ r₂ : String,
      errorMsg "schema" e₁ r₁ ≠ errorMsg "created_at" e₂ r₂ :=
    fun e₁ r₁ e₂ r₂ => errorMsg_ne_of_field "schema" e₁ r₁
      "created_at" e₂ r₂ 0 (by decide) (by decide) (by decide)
  have h_s_f : ∀ e₁ r₁ e₂ r₂ : String,
      errorMsg "schema" e₁ r₁ ≠ errorMsg "file_" e₂ r₂ :=
    fun e₁ r₁ e₂ r₂ => errorMsg_ne_of_field "schema" e₁ r₁
      "file_" e₂ r₂ 0 (by decide) (by decide) (by decide)
  have h_s_i : ∀ e₁ r₁ e₂ r₂ : String,
      errorMsg "schema" e₁ r₁ ≠ errorMsg "id_" e₂ r₂ :=
    fun e₁ r₁ e₂ r₂ => errorMsg_ne_of_field "schema" e₁ r₁
      "id_" e₂ r₂ 0 (by decide) (by decide) (by decide)
  have h_s_d : ∀ e₁ r₁ e₂ r₂ : String,
      errorMsg "schema" e₁ r₁ ≠ errorMsg "min_disk" e₂ r₂ :=
    fun e₁ r₁ e₂ r₂ => errorMsg_ne_of_field "schema" e₁ r₁
      "min_disk" e₂ r₂ 0 (by decide) (by decide) (by decide)
  have h_s_r : ∀ e₁ r₁ e₂ r₂ : String,
      errorMsg "schema" e₁ r₁ ≠ errorMsg "min_ram" e₂ r₂ :=
    fun e₁ r₁ e₂ r₂ => errorMsg_ne_of_field "schema" e₁ r₁
      "min_ram" e₂ r₂ 0 (by decide) (by decide) (by decide)
  have h_s_p : ∀ e₁ r₁ e₂ r₂ : String,
      errorMsg "schema" e₁ r₁ ≠ errorMsg "protected" e₂ r₂ :=
    fun e₁ r₁ e₂ r₂ => errorMsg_ne_of_field "schema" e₁ r₁
      "protected" e₂ r₂ 0 (by decide) (by decide) (by decide)
  have h_s_t : ∀ e₁ r₁ e₂ r₂ : String,
      errorMsg "schema" e₁ r₁ ≠ errorMsg "status" e₂ r₂ :=
    fun e₁ r₁ e₂ r₂ => errorMsg_ne_of_field "schema" e₁ r₁
      "status" e₂ r₂ 1 (by decide) (by decide) (by decide)
  have h_s_u : ∀ e₁ r₁ e₂ r₂ : String,
      errorMsg "schema" e₁ r₁ ≠ errorMsg "updated_at" e₂ r₂ :=
    fun e₁ r₁ e₂ r₂ => errorMsg_ne_of_field "schema" e₁ r₁
      "updated_at" e₂ r₂ 0 (by decide) (by decide) (by decide)
  have h_ss : ∀ a b c : String,
      errorMsg "schema" Schemas.IMAGE_SCHEMA a ≠
        errorMsg "schema" ("/v2/images/" ++ b) c :=
    schemaMsg_ne_selfMsg
  have h_ss2 : ∀ a b c : String,
      errorMsg "schema" ("/v2/images/" ++ b) c ≠
        errorMsg "schema" Schemas.IMAGE_SCHEMA a :=
    fun a b c => (schemaMsg_ne_selfMsg a b c).symm
  refine ⟨?_, ?_, ?_, ?_⟩ <;>
    rw [validate_image_unfold] <;>
    simp [List.mem_append, mem_ite_singleton, h_i_c, h_i_f, h_i_d, h_i_r, h_i_p, h_i_s, h_i_t, h_i_u, h_f_c, h_f_i, h_f_d, h_f_r, h_f_p, h_f_s, h_f_t, h_f_u, h_s_c, h_s_f, h_s_i, h_s_d, h_s_r, h_s_p, h_s_t, h_s_u, h_ss, h_ss2]

end CloudCafe
